import Mathlib

/-!
# A shallow embedding of `rucaja`'s `src/jvm.rs`

The source is a thin Rust layer over the JNI (Java Native Interface): it
creates a single embedded JVM, resolves classes and constructors, and
invokes constructors and static methods with pre-marshaled `jvalue`
arguments.

Modelling decisions:

* Raw foreign pointers are modelled as `Nat`, with `0` playing the role of
  the null pointer.
* JNI primitive values are modelled by their bit patterns: `jboolean`
  (u8), `jchar` (u16), `jfloat` (f32 bits) and `jdouble` (f64 bits) as
  `Nat`; the signed `jbyte`, `jshort`, `jint`, `jlong` as `Int`.  The
  marshaling functions never interpret these bits, they only store them,
  so no arithmetic semantics is needed.
* The foreign runtime is opaque: the raw result of each foreign call and
  the exception reference returned by the `ExceptionOccurred` query are
  parameters of the embedded operation (oracle inputs), universally
  quantified in the theorems.
* Each stateful operation returns a trace of boundary events (`Event`)
  together with an `Outcome`: either a normal return value or a Rust
  `panic` with its message.
-/

/-- The JNI `jvalue` union: a fixed-size union holding exactly one of the
nine supported primitive / reference kinds.  Modelled as a sum type whose
constructor names are the union member names of `jni_sys::jvalue`
(`z`, `b`, `c`, `d`, `f`, `i`, `j`, `l`, `s`). -/
inductive jvalue where
  /-- `jboolean` member (u8 bit pattern). -/
  | z (v : Nat)
  /-- `jbyte` member (i8 value). -/
  | b (v : Int)
  /-- `jchar` member (u16 bit pattern). -/
  | c (v : Nat)
  /-- `jdouble` member (f64 bit pattern). -/
  | d (v : Nat)
  /-- `jfloat` member (f32 bit pattern). -/
  | f (v : Nat)
  /-- `jint` member (i32 value). -/
  | i (v : Int)
  /-- `jlong` member (i64 value). -/
  | j (v : Int)
  /-- `jobject` member (raw pointer, `0` = null). -/
  | l (v : Nat)
  /-- `jshort` member (i16 value). -/
  | s (v : Int)
deriving DecidableEq, Repr

/-- Reads the `z` (`jboolean`) member back out of a `jvalue`, if it is the
active member. -/
def jvalue.asBoolean : jvalue → Option Nat
  | .z v => some v
  | _ => none

/-- Reads the `b` (`jbyte`) member back out of a `jvalue`, if it is the
active member. -/
def jvalue.asByte : jvalue → Option Int
  | .b v => some v
  | _ => none

/-- Reads the `c` (`jchar`) member back out of a `jvalue`, if it is the
active member. -/
def jvalue.asChar : jvalue → Option Nat
  | .c v => some v
  | _ => none

/-- Reads the `d` (`jdouble`) member back out of a `jvalue`, if it is the
active member. -/
def jvalue.asDouble : jvalue → Option Nat
  | .d v => some v
  | _ => none

/-- Reads the `f` (`jfloat`) member back out of a `jvalue`, if it is the
active member. -/
def jvalue.asFloat : jvalue → Option Nat
  | .f v => some v
  | _ => none

/-- Reads the `i` (`jint`) member back out of a `jvalue`, if it is the
active member. -/
def jvalue.asInt : jvalue → Option Int
  | .i v => some v
  | _ => none

/-- Reads the `j` (`jlong`) member back out of a `jvalue`, if it is the
active member. -/
def jvalue.asLong : jvalue → Option Int
  | .j v => some v
  | _ => none

/-- Reads the `l` (`jobject`) member back out of a `jvalue`, if it is the
active member. -/
def jvalue.asObject : jvalue → Option Nat
  | .l v => some v
  | _ => none

/-- Reads the `s` (`jshort`) member back out of a `jvalue`, if it is the
active member. -/
def jvalue.asShort : jvalue → Option Int
  | .s v => some v
  | _ => none

/-- Wraps a `jboolean` in a `jvalue` (`jvalue { z: arg }`). -/
def jvalue_from_jboolean (arg : Nat) : jvalue :=
  jvalue.z arg

/-- Wraps a `jbyte` in a `jvalue` (`jvalue { b: arg }`). -/
def jvalue_from_jbyte (arg : Int) : jvalue :=
  jvalue.b arg

/-- Wraps a `jchar` in a `jvalue` (`jvalue { c: arg }`). -/
def jvalue_from_jchar (arg : Nat) : jvalue :=
  jvalue.c arg

/-- Wraps a `jdouble` in a `jvalue` (`jvalue { d: arg }`). -/
def jvalue_from_jdouble (arg : Nat) : jvalue :=
  jvalue.d arg

/-- Wraps a `jint` in a `jvalue` (`jvalue { i: arg }`). -/
def jvalue_from_jint (arg : Int) : jvalue :=
  jvalue.i arg

/-- Wraps a `jfloat` in a `jvalue` (`jvalue { f: arg }`). -/
def jvalue_from_jfloat (arg : Nat) : jvalue :=
  jvalue.f arg

/-- Wraps a `jlong` in a `jvalue` (`jvalue { j: arg }`). -/
def jvalue_from_jlong (arg : Int) : jvalue :=
  jvalue.j arg

/-- Wraps a `jobject` in a `jvalue` (`jvalue { l: arg }`). -/
def jvalue_from_jobject (arg : Nat) : jvalue :=
  jvalue.l arg

/-- Wraps a `jshort` in a `jvalue` (`jvalue { s: arg }`). -/
def jvalue_from_jshort (arg : Int) : jvalue :=
  jvalue.s arg

/-- An observable event at the boundary between the host layer and the
foreign (JVM) runtime. -/
inductive Event where
  /-- Construction of a `JvmAttachment`: the current native thread is
  attached to the JVM (a foreign `AttachCurrentThread` call). -/
  | attach
  /-- A foreign call through the JNI environment's function table,
  identified by the JNI function name used as the selector
  (e.g. `"NewObjectA"`, `"FindClass"`). -/
  | call (selector : String)
  /-- `ExceptionDescribe`: the pending JVM exception is described to the
  diagnostic stream. -/
  | describeException
  /-- Destruction of a `JvmAttachment`: the current native thread is
  detached from the JVM (runs on scope exit, including panic unwinding). -/
  | detach
deriving DecidableEq, BEq, Repr

/-- Whether an event is a call into the foreign runtime.  Every event of
this model crosses the foreign boundary: attaching and detaching a thread,
describing an exception and the named JNI calls are all foreign calls. -/
def Event.isForeignCall : Event → Bool
  | .attach => true
  | .call _ => true
  | .describeException => true
  | .detach => true

/-- The result of running one host-side operation: either a normal return
value, or a Rust `panic` carrying its message (an unrecoverable failure
that unwinds the call; no value is returned in that case). -/
inductive Outcome (α : Type) where
  | ok (val : α)
  | panicked (msg : String)
deriving DecidableEq, Repr

/-- `JNI_FALSE` (jboolean 0). -/
def JNI_FALSE : Nat := 0

/-- `JNI_TRUE` (jboolean 1). -/
def JNI_TRUE : Nat := 1

/-- `JNI_OK` status code. -/
def JNI_OK : Int := 0

/-- `JNI_ERR` status code (unknown error). -/
def JNI_ERR : Int := -1

/-- `JNI_EDETACHED` status code (thread detached from the VM). -/
def JNI_EDETACHED : Int := -2

/-- `JNI_EVERSION` status code (JNI version error). -/
def JNI_EVERSION : Int := -3

/-- `JNI_ENOMEM` status code (not enough memory). -/
def JNI_ENOMEM : Int := -4

/-- `JNI_EEXIST` status code (VM already created). -/
def JNI_EEXIST : Int := -5

/-- `JNI_EINVAL` status code (invalid arguments). -/
def JNI_EINVAL : Int := -6

/-- `JNI_VERSION_1_8`. -/
def JNI_VERSION_1_8 : Int := 0x00010008

/-- Whether a Rust `&str` contains a NUL byte.  `CString::new` fails on
such strings, and the source calls `.unwrap()` on its result, so a NUL
byte makes the conversion panic. -/
def containsNul (st : String) : Bool :=
  st.toList.any (fun ch => ch == Char.ofNat 0)

/-- The panic message produced by `CString::new(..).unwrap()` on a string
with a NUL byte (a `Result::unwrap` on an `Err(NulError)`). -/
def cstringUnwrapPanicMsg : String :=
  "called Result::unwrap() on an Err value: NulError"

/-- Holds a reference to the embedded JVM (`pub struct Jvm`): wraps
exactly one raw pointer to the foreign runtime control structure. -/
structure Jvm where
  /-- The JVM (`jvm: *mut JavaVM`). -/
  jvm : Nat
deriving DecidableEq, Repr

/-- A JVM class handle: a raw foreign class pointer plus a non-owning
back-reference to the `Jvm` it came from.  Its Rust definition lives in
the external `jvm_class` module, not under `src/`. -/
structure JvmClass where
  /-- Back-reference to the runtime handle. -/
  jvmRef : Jvm
  /-- The raw `jclass` pointer (`jvm_ptr()`). -/
  jvm_ptr : Nat
deriving DecidableEq, Repr

/-- A JVM method identifier: a raw foreign `jmethodID` pointer plus a
non-owning back-reference to the `Jvm` it came from.  Its Rust definition
lives in the external `jvm_method` module, not under `src/`. -/
structure JvmMethod where
  /-- Back-reference to the runtime handle. -/
  jvmRef : Jvm
  /-- The raw `jmethodID` pointer (`jvm_ptr()`). -/
  jvm_ptr : Nat
deriving DecidableEq, Repr

/-- A JVM object reference: a raw foreign `jobject` pointer plus a
non-owning back-reference to the `Jvm` it came from.  Its Rust definition
lives in the external `jvm_object` module, not under `src/`. -/
structure JvmObject where
  /-- Back-reference to the runtime handle. -/
  jvmRef : Jvm
  /-- The raw `jobject` pointer. -/
  jvm_ptr : Nat
deriving DecidableEq, Repr

/-- Modelled from the spec: `JvmClass::from_jvm_ptr` is in the external
`jvm_class` module (not under `src/`).  The spec says each handle wrapper
is "constructed from a raw pointer; becomes 'no value' (absent) if that
pointer is null", keeping a back-reference to the runtime handle. -/
def JvmClass.from_jvm_ptr (jvm : Jvm) (ptr : Nat) : Option JvmClass :=
  if ptr == 0 then none else some ⟨jvm, ptr⟩

/-- Modelled from the spec: `JvmObject::from_jvm_ptr` is in the external
`jvm_object` module (not under `src/`).  The spec says each handle wrapper
is "constructed from a raw pointer; becomes 'no value' (absent) if that
pointer is null", keeping a back-reference to the runtime handle. -/
def JvmObject.from_jvm_ptr (jvm : Jvm) (ptr : Nat) : Option JvmObject :=
  if ptr == 0 then none else some ⟨jvm, ptr⟩

/-- Modelled from the spec: `JvmMethod::get_method` is in the external
`jvm_method` module (not under `src/`).  The spec describes it as "a
generic by-name-and-signature method lookup collaborator" producing an
optional method handle, null pointer becoming absent.  The foreign
`GetMethodID` lookup itself is opaque and is passed in as the oracle
`lookup`, mapping a method name and signature to a raw pointer. -/
def JvmMethod.get_method (jvm : Jvm) (lookup : String → String → Nat)
    (_jvm_class : JvmClass) (name signature : String) : Option JvmMethod :=
  if lookup name signature == 0 then none else some ⟨jvm, lookup name signature⟩

/-- `jvm_exception_occured` (sic): true iff the raw exception reference
returned by the foreign `ExceptionOccurred` query is non-null.  The raw
reference is the oracle input `excPtr`. -/
def jvm_exception_occured (excPtr : Nat) : Bool :=
  !(excPtr == 0)

/-- `print_and_panic_on_jvm_exception`: if a JVM exception occurred,
describe it (`ExceptionDescribe`) and panic with `"An exception
occurred"`.  Returns the emitted events and the panic message, if any. -/
def print_and_panic_on_jvm_exception (excPtr : Nat) : List Event × Option String :=
  if jvm_exception_occured excPtr then
    ([Event.describeException], some "An exception occurred")
  else
    ([], none)

/-- `print_jvm_exception`: if a JVM exception occurred, describe it
(`ExceptionDescribe`); never panics.  Returns the emitted events. -/
def print_jvm_exception (excPtr : Nat) : List Event :=
  if jvm_exception_occured excPtr then [Event.describeException] else []

/-- One element of the options array built by `Jvm::new`: a `JavaVMOption`
with a null-terminated option string and a null `extraInfo` pointer. -/
structure JavaVMOption where
  /-- `optionString`: the option text backing the C string. -/
  optionString : String
  /-- `extraInfo` pointer (always set to null by `Jvm::new`). -/
  extraInfo : Nat
deriving DecidableEq, Repr

/-- The `JavaVMInitArgs` initialization descriptor handed to
`JNI_CreateJavaVM`. -/
structure JavaVMInitArgs where
  /-- `version`: the targeted JNI version. -/
  version : Int
  /-- `options`: the options array. -/
  options : List JavaVMOption
  /-- `nOptions`: the option count (the `as i32` cast of the Rust
  `Vec::len` cannot overflow for any realizable vector, so it is modelled
  without wrapping). -/
  nOptions : Int
  /-- `ignoreUnrecognized`: jboolean flag; `JNI_TRUE` makes the JVM ignore
  unrecognized options, `JNI_FALSE` makes `JNI_CreateJavaVM` fail on any
  unrecognized option. -/
  ignoreUnrecognized : Nat
deriving DecidableEq, Repr

/-- The initialization descriptor assembled by `Jvm::new` (lines 140-158
of `src/jvm.rs`) for a given list of option strings: JNI version 1.8, one
`JavaVMOption` per option string with a null `extraInfo`, the option
count, and `ignoreUnrecognized: JNI_FALSE`. -/
def Jvm.init_args (jvm_option_strings : List String) : JavaVMInitArgs :=
  { version := JNI_VERSION_1_8
    options := jvm_option_strings.map (fun st => { optionString := st, extraInfo := 0 })
    nOptions := (jvm_option_strings.length : Int)
    ignoreUnrecognized := JNI_FALSE }

/-- The error message `Jvm::new` selects for a non-`JNI_OK` status code
returned by `JNI_CreateJavaVM` (the `match result` at lines 175-183). -/
def createJavaVMErrorMessage (result : Int) : String :=
  if result == JNI_EDETACHED then "thread detached from JVM"
  else if result == JNI_EEXIST then "JVM exists already"
  else if result == JNI_EINVAL then "invalid arguments"
  else if result == JNI_ENOMEM then "not enough memory"
  else if result == JNI_ERR then "unknown error"
  else if result == JNI_EVERSION then "JNI version error"
  else "unknown JNI error value"

/-- `Jvm::new`: converts the option strings to C strings (panicking on a
NUL byte before anything else happens), builds `Jvm.init_args`, invokes
the foreign creation primitive `JNI_CreateJavaVM`, and either panics with
the translated error message (non-`JNI_OK` status) or returns the handle
wrapping the runtime pointer.  The status code `result` and the runtime
pointer `jvmPtr` produced by the opaque foreign primitive are oracle
inputs. -/
def Jvm.new (jvm_option_strings : List String) (result : Int) (jvmPtr : Nat) :
    List Event × Outcome Jvm :=
  if jvm_option_strings.any containsNul then
    ([], Outcome.panicked cstringUnwrapPanicMsg)
  else if !(result == JNI_OK) then
    ([Event.call "JNI_CreateJavaVM"],
     Outcome.panicked
       ("`JNI_CreateJavaVM()` signaled an error: " ++ createJavaVMErrorMessage result))
  else
    ([Event.call "JNI_CreateJavaVM"], Outcome.ok { jvm := jvmPtr })

/-- `Jvm::call_constructor`: attaches the current thread, performs the
foreign `NewObjectA` call, runs the fatal exception bridge, and returns
the raw `jobject` result unwrapped.  `callResult` and `excPtr` are the
oracle outputs of the opaque foreign `NewObjectA` call and of the
subsequent `ExceptionOccurred` query.  The `Event.detach` emitted on the
panic path is modelled from the spec: the `JvmAttachment` collaborator
(not under `src/`) "detaches on scope exit regardless of path (including
failure paths)", which is Rust drop semantics during panic unwinding. -/
def Jvm.call_constructor (_jvm : Jvm) (_jvm_class : JvmClass)
    (_jvm_constructor_method : JvmMethod) (_args : List jvalue)
    (callResult : Nat) (excPtr : Nat) : List Event × Outcome Nat :=
  let bridge := print_and_panic_on_jvm_exception excPtr
  (Event.attach :: Event.call "NewObjectA" :: (bridge.1 ++ [Event.detach]),
   match bridge.2 with
   | some msg => Outcome.panicked msg
   | none => Outcome.ok callResult)

/-- `Jvm::call_static_boolean_method`: attaches the current thread,
performs the foreign `CallStaticBooleanMethodA` call, runs the fatal
exception bridge, and returns the raw `jboolean` result. -/
def Jvm.call_static_boolean_method (_jvm : Jvm) (_jvm_class : JvmClass)
    (_jvm_method : JvmMethod) (_args : List jvalue)
    (callResult : Nat) (excPtr : Nat) : List Event × Outcome Nat :=
  let bridge := print_and_panic_on_jvm_exception excPtr
  (Event.attach :: Event.call "CallStaticBooleanMethodA" :: (bridge.1 ++ [Event.detach]),
   match bridge.2 with
   | some msg => Outcome.panicked msg
   | none => Outcome.ok callResult)

/-- `Jvm::call_static_int_method`: attaches the current thread, performs
the foreign `CallStaticIntMethodA` call, runs the fatal exception bridge,
and returns the raw `jint` result. -/
def Jvm.call_static_int_method (_jvm : Jvm) (_jvm_class : JvmClass)
    (_jvm_method : JvmMethod) (_args : List jvalue)
    (callResult : Int) (excPtr : Nat) : List Event × Outcome Int :=
  let bridge := print_and_panic_on_jvm_exception excPtr
  (Event.attach :: Event.call "CallStaticIntMethodA" :: (bridge.1 ++ [Event.detach]),
   match bridge.2 with
   | some msg => Outcome.panicked msg
   | none => Outcome.ok callResult)

/-- `Jvm::call_static_object_method`: attaches the current thread,
performs the foreign `CallStaticObjectMethodA` call, runs the fatal
exception bridge, and wraps the raw result pointer through
`JvmObject.from_jvm_ptr` (null becomes `none`). -/
def Jvm.call_static_object_method (jvm : Jvm) (_jvm_class : JvmClass)
    (_jvm_method : JvmMethod) (_args : List jvalue)
    (callResult : Nat) (excPtr : Nat) : List Event × Outcome (Option JvmObject) :=
  let bridge := print_and_panic_on_jvm_exception excPtr
  (Event.attach :: Event.call "CallStaticObjectMethodA" :: (bridge.1 ++ [Event.detach]),
   match bridge.2 with
   | some msg => Outcome.panicked msg
   | none => Outcome.ok (JvmObject.from_jvm_ptr jvm callResult))

/-- `Jvm::call_static_void_method`: attaches the current thread, performs
the foreign `CallStaticVoidMethodA` call, runs the fatal exception bridge,
and returns nothing. -/
def Jvm.call_static_void_method (_jvm : Jvm) (_jvm_class : JvmClass)
    (_jvm_method : JvmMethod) (_args : List jvalue)
    (excPtr : Nat) : List Event × Outcome Unit :=
  let bridge := print_and_panic_on_jvm_exception excPtr
  (Event.attach :: Event.call "CallStaticVoidMethodA" :: (bridge.1 ++ [Event.detach]),
   match bridge.2 with
   | some msg => Outcome.panicked msg
   | none => Outcome.ok ())

/-- `Jvm::get_class`: attaches the current thread (line 353), converts the
class name to a C string (line 355, panicking on a NUL byte), performs the
foreign `FindClass` lookup, prints (but does not raise) any pending JVM
exception, and wraps the resulting pointer through
`JvmClass.from_jvm_ptr`.  `classPtr` and `excPtr` are the oracle outputs
of the opaque foreign `FindClass` call and `ExceptionOccurred` query.
Note the ordering: the attachment is constructed before the C string
conversion, so a NUL-byte panic unwinds an already-attached thread (the
`Event.detach` on that path is the attachment's drop during unwinding,
modelled from the spec as for the invocation operations). -/
def Jvm.get_class (jvm : Jvm) (jvm_class_name : String)
    (classPtr : Nat) (excPtr : Nat) : List Event × Outcome (Option JvmClass) :=
  if containsNul jvm_class_name then
    ([Event.attach, Event.detach], Outcome.panicked cstringUnwrapPanicMsg)
  else
    (Event.attach :: Event.call "FindClass" ::
       (print_jvm_exception excPtr ++ [Event.detach]),
     Outcome.ok (JvmClass.from_jvm_ptr jvm classPtr))

/-- `Jvm::get_constructor`: delegates to `JvmMethod.get_method` with the
method name fixed to `"<init>"`. -/
def Jvm.get_constructor (jvm : Jvm) (lookup : String → String → Nat)
    (jvm_class : JvmClass) (jvm_method_signature : String) : Option JvmMethod :=
  JvmMethod.get_method jvm lookup jvm_class "<init>" jvm_method_signature

/-- `impl Drop for Jvm`: the drop body is empty (VM unloading is
unsupported; calling `DestroyJavaVM()` led to SIGSEGVs).  Returns the
foreign-boundary events it emits (none) and the untouched handle. -/
def Jvm.drop (jvm : Jvm) : List Event × Jvm :=
  ([], jvm)

/-- C1 (counterexample): the claim says the initialization descriptor sets
the reject-unrecognized-options flag to the permissive setting
(`ignoreUnrecognized = JNI_TRUE`, unrecognized options ignored).  At the
concrete input `["-Xcheck:jni"]` the descriptor's `ignoreUnrecognized`
field is `JNI_FALSE`, not `JNI_TRUE`, so unrecognized options make
`JNI_CreateJavaVM` fail rather than being ignored. -/
theorem init_args_not_permissive :
    (Jvm.init_args ["-Xcheck:jni"]).ignoreUnrecognized ≠ JNI_TRUE := by
  decide

/-- C1 (amended): for every input sequence of option strings, the
initialization descriptor sets `ignoreUnrecognized` to `JNI_FALSE`, the
strict setting: unrecognized options are rejected by the creation
primitive, never ignored. -/
theorem init_args_ignoreUnrecognized_false (jvm_option_strings : List String) :
    (Jvm.init_args jvm_option_strings).ignoreUnrecognized = JNI_FALSE :=
  rfl

/-- C2: for every invocation operation (`call_constructor`,
`call_static_boolean_method`, `call_static_int_method`,
`call_static_object_method`, `call_static_void_method`), if the foreign
runtime reports a pending exception after the foreign call (the
`ExceptionOccurred` reference `excPtr` is non-null), the operation
describes the exception to the diagnostic stream (`Event.describeException`
is in its trace) and panics with `"An exception occurred"`, never
returning a value. -/
theorem invocation_panics_on_pending_exception (jvm : Jvm) (cls : JvmClass)
    (mth : JvmMethod) (args : List jvalue) (objResult boolResult : Nat)
    (intResult : Int) (excPtr : Nat)
    (h : jvm_exception_occured excPtr = true) :
    (Jvm.call_constructor jvm cls mth args objResult excPtr).2 =
        Outcome.panicked "An exception occurred" ∧
    Event.describeException ∈ (Jvm.call_constructor jvm cls mth args objResult excPtr).1 ∧
    (Jvm.call_static_boolean_method jvm cls mth args boolResult excPtr).2 =
        Outcome.panicked "An exception occurred" ∧
    Event.describeException ∈
      (Jvm.call_static_boolean_method jvm cls mth args boolResult excPtr).1 ∧
    (Jvm.call_static_int_method jvm cls mth args intResult excPtr).2 =
        Outcome.panicked "An exception occurred" ∧
    Event.describeException ∈
      (Jvm.call_static_int_method jvm cls mth args intResult excPtr).1 ∧
    (Jvm.call_static_object_method jvm cls mth args objResult excPtr).2 =
        Outcome.panicked "An exception occurred" ∧
    Event.describeException ∈
      (Jvm.call_static_object_method jvm cls mth args objResult excPtr).1 ∧
    (Jvm.call_static_void_method jvm cls mth args excPtr).2 =
        Outcome.panicked "An exception occurred" ∧
    Event.describeException ∈ (Jvm.call_static_void_method jvm cls mth args excPtr).1 := by
  simp [Jvm.call_constructor, Jvm.call_static_boolean_method,
    Jvm.call_static_int_method, Jvm.call_static_object_method,
    Jvm.call_static_void_method, print_and_panic_on_jvm_exception, h]

/-- C2 (witness): the pending-exception hypothesis holds at `excPtr = 5`,
and the conclusion follows at concrete inputs. -/
theorem invocation_panics_on_pending_exception_witness :
    jvm_exception_occured 5 = true ∧
    ((Jvm.call_constructor ⟨1⟩ ⟨⟨1⟩, 2⟩ ⟨⟨1⟩, 3⟩ [] 7 5).2 =
        Outcome.panicked "An exception occurred" ∧
     Event.describeException ∈ (Jvm.call_constructor ⟨1⟩ ⟨⟨1⟩, 2⟩ ⟨⟨1⟩, 3⟩ [] 7 5).1 ∧
     (Jvm.call_static_boolean_method ⟨1⟩ ⟨⟨1⟩, 2⟩ ⟨⟨1⟩, 3⟩ [] 1 5).2 =
        Outcome.panicked "An exception occurred" ∧
     Event.describeException ∈
       (Jvm.call_static_boolean_method ⟨1⟩ ⟨⟨1⟩, 2⟩ ⟨⟨1⟩, 3⟩ [] 1 5).1 ∧
     (Jvm.call_static_int_method ⟨1⟩ ⟨⟨1⟩, 2⟩ ⟨⟨1⟩, 3⟩ [] 9 5).2 =
        Outcome.panicked "An exception occurred" ∧
     Event.describeException ∈
       (Jvm.call_static_int_method ⟨1⟩ ⟨⟨1⟩, 2⟩ ⟨⟨1⟩, 3⟩ [] 9 5).1 ∧
     (Jvm.call_static_object_method ⟨1⟩ ⟨⟨1⟩, 2⟩ ⟨⟨1⟩, 3⟩ [] 7 5).2 =
        Outcome.panicked "An exception occurred" ∧
     Event.describeException ∈
       (Jvm.call_static_object_method ⟨1⟩ ⟨⟨1⟩, 2⟩ ⟨⟨1⟩, 3⟩ [] 7 5).1 ∧
     (Jvm.call_static_void_method ⟨1⟩ ⟨⟨1⟩, 2⟩ ⟨⟨1⟩, 3⟩ [] 5).2 =
        Outcome.panicked "An exception occurred" ∧
     Event.describeException ∈ (Jvm.call_static_void_method ⟨1⟩ ⟨⟨1⟩, 2⟩ ⟨⟨1⟩, 3⟩ [] 5).1) :=
  ⟨by decide,
   invocation_panics_on_pending_exception ⟨1⟩ ⟨⟨1⟩, 2⟩ ⟨⟨1⟩, 3⟩ [] 7 1 9 5 (by decide)⟩

/-- C3 (counterexample): the claim quantifies over every class name, but
at the concrete class name `"a\x00b"` (which contains a NUL byte)
`get_class` panics in the `CString::new(..).unwrap()` conversion: it
performs no by-name lookup (its trace has no `FindClass` call) and it
aborts rather than returning an absent result. -/
theorem get_class_nul_name_aborts :
    (Jvm.get_class ⟨1⟩ "a\x00b" 0 0).2 = Outcome.panicked cstringUnwrapPanicMsg ∧
    (Jvm.get_class ⟨1⟩ "a\x00b" 0 0).1 = [Event.attach, Event.detach] := by
  decide

/-- C3 (amended): for every class name free of NUL bytes, `get_class`
performs the by-name lookup (a `FindClass` call is in its trace), prints
but never raises any pending foreign exception, and wraps the resulting
pointer — a null `classPtr` yields `none`, a non-null one yields a present
handle — and never panics on a failed lookup. -/
theorem get_class_wraps_and_never_aborts (jvm : Jvm) (jvm_class_name : String)
    (classPtr excPtr : Nat) (h : containsNul jvm_class_name = false) :
    (Jvm.get_class jvm jvm_class_name classPtr excPtr).2 =
        Outcome.ok (JvmClass.from_jvm_ptr jvm classPtr) ∧
    Event.call "FindClass" ∈ (Jvm.get_class jvm jvm_class_name classPtr excPtr).1 ∧
    (jvm_exception_occured excPtr = true →
      Event.describeException ∈ (Jvm.get_class jvm jvm_class_name classPtr excPtr).1) ∧
    (classPtr = 0 →
      (Jvm.get_class jvm jvm_class_name classPtr excPtr).2 = Outcome.ok none) ∧
    (classPtr ≠ 0 →
      (Jvm.get_class jvm jvm_class_name classPtr excPtr).2 =
        Outcome.ok (some ⟨jvm, classPtr⟩)) ∧
    (∀ msg, (Jvm.get_class jvm jvm_class_name classPtr excPtr).2 ≠ Outcome.panicked msg) := by
  refine ⟨?_, ?_, ?_, ?_, ?_, ?_⟩
  · simp [Jvm.get_class, h]
  · simp [Jvm.get_class, h]
  · intro he
    simp [Jvm.get_class, h, print_jvm_exception, he]
  · intro hp
    simp [Jvm.get_class, h, JvmClass.from_jvm_ptr, hp]
  · intro hp
    simp [Jvm.get_class, h, JvmClass.from_jvm_ptr, hp]
  · intro msg
    simp [Jvm.get_class, h]

/-- C3 (witness): the no-NUL hypothesis holds at the class name
`"java.lang.String"`, and the conclusion follows there with a non-null
class pointer and a pending exception reference. -/
theorem get_class_wraps_and_never_aborts_witness :
    containsNul "java.lang.String" = false ∧
    ((Jvm.get_class ⟨1⟩ "java.lang.String" 4 1).2 =
        Outcome.ok (JvmClass.from_jvm_ptr ⟨1⟩ 4) ∧
     Event.call "FindClass" ∈ (Jvm.get_class ⟨1⟩ "java.lang.String" 4 1).1 ∧
     (jvm_exception_occured 1 = true →
       Event.describeException ∈ (Jvm.get_class ⟨1⟩ "java.lang.String" 4 1).1) ∧
     ((4 : Nat) = 0 →
       (Jvm.get_class ⟨1⟩ "java.lang.String" 4 1).2 = Outcome.ok none) ∧
     ((4 : Nat) ≠ 0 →
       (Jvm.get_class ⟨1⟩ "java.lang.String" 4 1).2 = Outcome.ok (some ⟨⟨1⟩, 4⟩)) ∧
     (∀ msg, (Jvm.get_class ⟨1⟩ "java.lang.String" 4 1).2 ≠ Outcome.panicked msg)) :=
  ⟨by decide, get_class_wraps_and_never_aborts ⟨1⟩ "java.lang.String" 4 1 (by decide)⟩

/-- C4: for every host primitive value of each of the nine supported
kinds, the corresponding `jvalue_from_*` marshaling operation produces a
`jvalue` whose active union member holds exactly that value (reading the
member back yields the value unchanged).  The operations are plain
functions, hence deterministic and side-effect-free. -/
theorem marshal_roundtrip (vz vc vd vf vl : Nat) (vb vi vj vs : Int) :
    (jvalue_from_jboolean vz).asBoolean = some vz ∧
    (jvalue_from_jbyte vb).asByte = some vb ∧
    (jvalue_from_jchar vc).asChar = some vc ∧
    (jvalue_from_jdouble vd).asDouble = some vd ∧
    (jvalue_from_jfloat vf).asFloat = some vf ∧
    (jvalue_from_jint vi).asInt = some vi ∧
    (jvalue_from_jlong vj).asLong = some vj ∧
    (jvalue_from_jobject vl).asObject = some vl ∧
    (jvalue_from_jshort vs).asShort = some vs :=
  ⟨rfl, rfl, rfl, rfl, rfl, rfl, rfl, rfl, rfl⟩

/-- C5: whenever the foreign creation primitive returns a non-`JNI_OK`
status code, `Jvm::new` panics (it never returns a handle), and the seven
possible outcomes — thread-detached, instance-already-exists,
invalid-arguments, out-of-memory, unknown-error, version-unsupported, and
any unrecognized code (represented by `42`) — map to pairwise distinct
diagnostic messages. -/
theorem new_panics_on_error_distinct_messages (jvm_option_strings : List String)
    (result : Int) (jvmPtr : Nat) (h : result ≠ JNI_OK) :
    (∃ msg, (Jvm.new jvm_option_strings result jvmPtr).2 = Outcome.panicked msg) ∧
    [createJavaVMErrorMessage JNI_EDETACHED, createJavaVMErrorMessage JNI_EEXIST,
     createJavaVMErrorMessage JNI_EINVAL, createJavaVMErrorMessage JNI_ENOMEM,
     createJavaVMErrorMessage JNI_ERR, createJavaVMErrorMessage JNI_EVERSION,
     createJavaVMErrorMessage 42].Pairwise (· ≠ ·) := by
  constructor
  · have hb : (result == JNI_OK) = false := by
      simpa using h
    by_cases ha : jvm_option_strings.any containsNul = true
    · exact ⟨cstringUnwrapPanicMsg, by simp [Jvm.new, ha]⟩
    · exact ⟨"`JNI_CreateJavaVM()` signaled an error: " ++ createJavaVMErrorMessage result,
        by simp [Jvm.new, ha, hb]⟩
  · decide

/-- C5 (witness): the non-success hypothesis holds at status code `-5`
(`JNI_EEXIST`), and the conclusion follows there. -/
theorem new_panics_on_error_distinct_messages_witness :
    (-5 : Int) ≠ JNI_OK ∧
    ((∃ msg, (Jvm.new [] (-5) 0).2 = Outcome.panicked msg) ∧
     [createJavaVMErrorMessage JNI_EDETACHED, createJavaVMErrorMessage JNI_EEXIST,
      createJavaVMErrorMessage JNI_EINVAL, createJavaVMErrorMessage JNI_ENOMEM,
      createJavaVMErrorMessage JNI_ERR, createJavaVMErrorMessage JNI_EVERSION,
      createJavaVMErrorMessage 42].Pairwise (· ≠ ·)) :=
  ⟨by decide, new_panics_on_error_distinct_messages [] (-5) 0 (by decide)⟩

/-- C6: when no exception is pending, `call_static_object_method` wraps
the raw result pointer through the absent-on-null wrapping (null yields
`none`, non-null yields a present `JvmObject`), whereas `call_constructor`
returns the raw object pointer directly, without wrapping — in particular
it returns the raw pointer value even when it is null. -/
theorem static_object_wraps_constructor_raw (jvm : Jvm) (cls : JvmClass)
    (mth : JvmMethod) (args : List jvalue) (callResult excPtr : Nat)
    (h : jvm_exception_occured excPtr = false) :
    (Jvm.call_static_object_method jvm cls mth args callResult excPtr).2 =
        Outcome.ok (JvmObject.from_jvm_ptr jvm callResult) ∧
    (callResult = 0 →
      (Jvm.call_static_object_method jvm cls mth args callResult excPtr).2 =
        Outcome.ok none) ∧
    (callResult ≠ 0 →
      (Jvm.call_static_object_method jvm cls mth args callResult excPtr).2 =
        Outcome.ok (some ⟨jvm, callResult⟩)) ∧
    (Jvm.call_constructor jvm cls mth args callResult excPtr).2 =
        Outcome.ok callResult := by
  refine ⟨?_, ?_, ?_, ?_⟩
  · simp [Jvm.call_static_object_method, print_and_panic_on_jvm_exception, h]
  · intro hp
    simp [Jvm.call_static_object_method, print_and_panic_on_jvm_exception, h,
      JvmObject.from_jvm_ptr, hp]
  · intro hp
    simp [Jvm.call_static_object_method, print_and_panic_on_jvm_exception, h,
      JvmObject.from_jvm_ptr, hp]
  · simp [Jvm.call_constructor, print_and_panic_on_jvm_exception, h]

/-- C6 (witness): the no-pending-exception hypothesis holds at
`excPtr = 0`, and the conclusion follows at a null raw result pointer:
the static object call yields `ok none` while the constructor yields the
raw null pointer `ok 0`. -/
theorem static_object_wraps_constructor_raw_witness :
    jvm_exception_occured 0 = false ∧
    ((Jvm.call_static_object_method ⟨1⟩ ⟨⟨1⟩, 2⟩ ⟨⟨1⟩, 3⟩ [] 0 0).2 =
        Outcome.ok (JvmObject.from_jvm_ptr ⟨1⟩ 0) ∧
     ((0 : Nat) = 0 →
       (Jvm.call_static_object_method ⟨1⟩ ⟨⟨1⟩, 2⟩ ⟨⟨1⟩, 3⟩ [] 0 0).2 =
         Outcome.ok none) ∧
     ((0 : Nat) ≠ 0 →
       (Jvm.call_static_object_method ⟨1⟩ ⟨⟨1⟩, 2⟩ ⟨⟨1⟩, 3⟩ [] 0 0).2 =
         Outcome.ok (some ⟨⟨1⟩, 0⟩)) ∧
     (Jvm.call_constructor ⟨1⟩ ⟨⟨1⟩, 2⟩ ⟨⟨1⟩, 3⟩ [] 0 0).2 = Outcome.ok 0) :=
  ⟨by decide, static_object_wraps_constructor_raw ⟨1⟩ ⟨⟨1⟩, 2⟩ ⟨⟨1⟩, 3⟩ [] 0 0 (by decide)⟩

/-- C7: every invocation operation acquires the thread attachment exactly
once, as its first boundary event, and releases it exactly once, as its
last boundary event, on every exit path — both when the call returns
normally and when it aborts by panic (the traces below cover both cases
since `excPtr` is arbitrary).  No attachment persists across calls: each
trace is self-contained with one attach and one detach. -/
theorem invocation_attachment_balanced (jvm : Jvm) (cls : JvmClass)
    (mth : JvmMethod) (args : List jvalue) (objResult boolResult : Nat)
    (intResult : Int) (excPtr : Nat) :
    ((Jvm.call_constructor jvm cls mth args objResult excPtr).1.head? =
        some Event.attach ∧
     (Jvm.call_constructor jvm cls mth args objResult excPtr).1.getLast? =
        some Event.detach ∧
     (Jvm.call_constructor jvm cls mth args objResult excPtr).1.count Event.attach = 1 ∧
     (Jvm.call_constructor jvm cls mth args objResult excPtr).1.count Event.detach = 1) ∧
    ((Jvm.call_static_boolean_method jvm cls mth args boolResult excPtr).1.head? =
        some Event.attach ∧
     (Jvm.call_static_boolean_method jvm cls mth args boolResult excPtr).1.getLast? =
        some Event.detach ∧
     (Jvm.call_static_boolean_method jvm cls mth args boolResult excPtr).1.count
        Event.attach = 1 ∧
     (Jvm.call_static_boolean_method jvm cls mth args boolResult excPtr).1.count
        Event.detach = 1) ∧
    ((Jvm.call_static_int_method jvm cls mth args intResult excPtr).1.head? =
        some Event.attach ∧
     (Jvm.call_static_int_method jvm cls mth args intResult excPtr).1.getLast? =
        some Event.detach ∧
     (Jvm.call_static_int_method jvm cls mth args intResult excPtr).1.count
        Event.attach = 1 ∧
     (Jvm.call_static_int_method jvm cls mth args intResult excPtr).1.count
        Event.detach = 1) ∧
    ((Jvm.call_static_object_method jvm cls mth args objResult excPtr).1.head? =
        some Event.attach ∧
     (Jvm.call_static_object_method jvm cls mth args objResult excPtr).1.getLast? =
        some Event.detach ∧
     (Jvm.call_static_object_method jvm cls mth args objResult excPtr).1.count
        Event.attach = 1 ∧
     (Jvm.call_static_object_method jvm cls mth args objResult excPtr).1.count
        Event.detach = 1) ∧
    ((Jvm.call_static_void_method jvm cls mth args excPtr).1.head? =
        some Event.attach ∧
     (Jvm.call_static_void_method jvm cls mth args excPtr).1.getLast? =
        some Event.detach ∧
     (Jvm.call_static_void_method jvm cls mth args excPtr).1.count Event.attach = 1 ∧
     (Jvm.call_static_void_method jvm cls mth args excPtr).1.count Event.detach = 1) := by
  cases h : jvm_exception_occured excPtr <;>
    simp only [Jvm.call_constructor, Jvm.call_static_boolean_method,
      Jvm.call_static_int_method, Jvm.call_static_object_method,
      Jvm.call_static_void_method, print_and_panic_on_jvm_exception, h,
      if_true, if_false, Bool.false_eq_true, ite_false, ite_true] <;>
    decide

/-- C8: `get_constructor` equals the generic by-name-and-signature method
lookup applied to the same class and signature with the method name fixed
to the reserved instance-initializer name `"<init>"`, for every class
handle, signature string, and lookup oracle. -/
theorem get_constructor_is_get_method_init (jvm : Jvm)
    (lookup : String → String → Nat) (jvm_class : JvmClass)
    (jvm_method_signature : String) :
    Jvm.get_constructor jvm lookup jvm_class jvm_method_signature =
      JvmMethod.get_method jvm lookup jvm_class "<init>" jvm_method_signature :=
  rfl

/-- C9: dropping a `Jvm` performs no foreign teardown call (its boundary
trace is empty — in particular no `DestroyJavaVM` call) and leaves the
handle, including the stored runtime pointer, untouched. -/
theorem drop_performs_no_teardown (jvm : Jvm) :
    (Jvm.drop jvm).1 = [] ∧
    Event.call "DestroyJavaVM" ∉ (Jvm.drop jvm).1 ∧
    (Jvm.drop jvm).2 = jvm :=
  ⟨rfl, by simp [Jvm.drop], rfl⟩

/-- C10 (counterexample): the claim says a NUL byte makes the operation
panic before any foreign call is made.  That holds for `Jvm::new`, but at
the concrete class name `"a\x00b"` `get_class` panics only after the
thread attachment has been constructed: its trace already contains
`Event.attach`, which is a foreign call (the collaborator's
`AttachCurrentThread`), so a foreign call is made before the panic. -/
theorem get_class_nul_panic_after_attach :
    (Jvm.get_class ⟨1⟩ "a\x00b" 0 0).2 = Outcome.panicked cstringUnwrapPanicMsg ∧
    Event.attach ∈ (Jvm.get_class ⟨1⟩ "a\x00b" 0 0).1 ∧
    Event.attach.isForeignCall = true := by
  have h : containsNul "a\x00b" = true := by decide
  refine ⟨?_, ?_, rfl⟩
  · simp [Jvm.get_class, h]
  · simp [Jvm.get_class, h]

/-- C10 (amended): a NUL byte in any option string makes `Jvm::new` panic
from the C string conversion before any foreign call (its trace is empty);
a NUL byte in the class name makes `get_class` panic from the C string
conversion before the class-lookup foreign call (no `Event.call` is in its
trace), but after the thread attachment has been acquired — its trace is
exactly the attach and the unwinding detach. -/
theorem nul_byte_panics_before_lookup (jvm_option_strings : List String)
    (result : Int) (jvmPtr : Nat) (jvm : Jvm) (jvm_class_name : String)
    (classPtr excPtr : Nat)
    (h₁ : jvm_option_strings.any containsNul = true)
    (h₂ : containsNul jvm_class_name = true) :
    Jvm.new jvm_option_strings result jvmPtr =
        ([], Outcome.panicked cstringUnwrapPanicMsg) ∧
    Jvm.get_class jvm jvm_class_name classPtr excPtr =
        ([Event.attach, Event.detach], Outcome.panicked cstringUnwrapPanicMsg) ∧
    (∀ selector, Event.call selector ∉ (Jvm.get_class jvm jvm_class_name classPtr excPtr).1) := by
  refine ⟨?_, ?_, ?_⟩
  · simp [Jvm.new, h₁]
  · simp [Jvm.get_class, h₂]
  · intro selector
    simp [Jvm.get_class, h₂]

/-- C10 (witness): both NUL hypotheses hold at the concrete option list
`["-Xms\x0016m"]` and class name `"a\x00b"`, and the conclusion follows
there. -/
theorem nul_byte_panics_before_lookup_witness :
    (["-Xms\x0016m"].any containsNul = true ∧ containsNul "a\x00b" = true) ∧
    (Jvm.new ["-Xms\x0016m"] 0 9 = ([], Outcome.panicked cstringUnwrapPanicMsg) ∧
     Jvm.get_class ⟨1⟩ "a\x00b" 4 1 =
        ([Event.attach, Event.detach], Outcome.panicked cstringUnwrapPanicMsg) ∧
     (∀ selector, Event.call selector ∉ (Jvm.get_class ⟨1⟩ "a\x00b" 4 1).1)) :=
  ⟨⟨by decide, by decide⟩,
   nul_byte_panics_before_lookup ["-Xms\x0016m"] 0 9 ⟨1⟩ "a\x00b" 4 1
     (by decide) (by decide)⟩
